import Mathlib

/-!
Shallow embedding of the authentication core of the fastapi-crud-project
repository (src/apps/auth/services.py, src/apps/auth/models.py,
src/apps/users/services.py, src/apps/auth/views.py, src/core/security.py,
src/core/security_unified.py, src/core/security_argon2.py, src/utils/auth.py),
together with theorems settling the claims about it.

Conventions of the embedding:
- timestamps are `Nat` seconds (the code compares timezone-aware datetimes);
- 128-bit ids are `Nat`;
- Python exceptions become an explicit `PyErr` error value threaded through
  `Except`; every operation returns its result together with the database
  state that is committed when it finishes (on an uncaught exception the
  uncommitted pending changes are discarded, as SQLAlchemy does on rollback).
-/

namespace FastapiAuth

/-- Character-list prefix test: `listIsPre p l` is true iff `p` is a prefix
of `l`.  This embeds Python's `str.startswith`, which the source uses to
sniff the hash algorithm from the leading characters of a stored hash. -/
def listIsPre : List Char → List Char → Bool
  | [], _ => true
  | _ :: _, [] => false
  | a :: as, b :: bs => a == b && listIsPre as bs

/-- Function `pyStartsWith s pre` embeds the Python expression `s.startswith(pre)`. -/
def pyStartsWith (s pre : String) : Bool :=
  listIsPre pre.data s.data

/-- Hash algorithms selectable through `settings.PASSWORD_HASH_ALGORITHM`
in `src/core/security_unified.py` (the module supports exactly `"bcrypt"`
and `"argon2"`). -/
inductive HashAlg where
  | bcrypt
  | argon2
deriving DecidableEq, Repr

/-- The lower-cased configuration string compared against the detected hash
type in `upgrade_password_hash` (`security_unified.py`). -/
def HashAlg.name : HashAlg → String
  | .bcrypt => "bcrypt"
  | .argon2 => "argon2"

/-- Python exceptions raised by the authentication core.  The first five are
the typed business exceptions declared in `src/apps/users/services.py` and
`src/apps/auth/services.py`; `valueError` stands for an untyped library
`ValueError` (e.g. bcrypt's "Invalid salt"); `attributeError` for an
`AttributeError` escaping from library code. -/
inductive PyErr where
  | invalidCredentials (msg : String)
  | userNotFound (msg : String)
  | inactiveUser (msg : String)
  | invalidToken (msg : String)
  | tooManyAttempts (msg : String)
  | valueError (msg : String)
  | attributeError (msg : String)
deriving DecidableEq, Repr

/-- Test for `Except.ok`, used to state that an operation succeeded. -/
def exOk {ε α : Type} : Except ε α → Bool
  | .ok _ => true
  | .error _ => false

/-! ## Password hashing primitives

The bcrypt and argon2 libraries are external dependencies, not code of this
repository.  Modelled from the spec: per §8, `verify(P, hash(P)) == true`
and `verify(P', hash(P)) == false` for `P' ≠ P` (collisions happen only
with negligible probability and are idealized away), and per §4.1 a hash is
self-describing through its prefix (`$2b$`/`$2a$` for bcrypt with cost 12,
`$argon2` for Argon2id with t=3, m=65536, p=1).  The random salt plays no
role in any claim and is elided, making the ideal hash deterministic and
injective in the password. -/

/-- Ideal bcrypt hash at the cost factor 12 used by
`src/core/security.py::get_password_hash`. -/
def bcryptHash (password : String) : String :=
  "$2b$12$" ++ password

/-- Ideal bcrypt verification: true exactly on the hashing password. -/
def bcryptVerify (password hashed : String) : Bool :=
  hashed == bcryptHash password

/-- Embeds `bcrypt.checkpw`, as called by `src/core/security.py::verify_password`:
on a structurally non-bcrypt hash (anything whose prefix is not
`$2a$`/`$2b$`) the library raises `ValueError("Invalid salt")` instead of
returning `False`. -/
def bcryptCheckpw (password hashed : String) : Except PyErr Bool :=
  if pyStartsWith hashed "$2b$" || pyStartsWith hashed "$2a$" then
    .ok (bcryptVerify password hashed)
  else
    .error (.valueError "Invalid salt")

/-- Embeds `src/core/security.py::verify_password`: bcrypt-only, delegates to
`bcrypt.checkpw` without catching its exceptions. -/
def securityVerifyPassword (plain hashed : String) : Except PyErr Bool :=
  bcryptCheckpw plain hashed

/-- Embeds `src/core/security.py::get_password_hash`: bcrypt-only, cost 12. -/
def securityGetPasswordHash (password : String) : String :=
  bcryptHash password

/-- Ideal Argon2id hash with the parameters fixed in
`src/core/security_argon2.py` (t=3, m=65536 KiB, p=1). -/
def argon2Hash (password : String) : String :=
  "$argon2id$v=19$m=65536,t=3,p=1$" ++ password

/-- Embeds `src/core/security_argon2.py::verify_password`: returns false on a
mismatch (`VerifyMismatchError` is caught); any other failure — such as a
structurally non-argon2 hash — is re-raised as a `ValueError`. -/
def argon2VerifyPassword (password hashed : String) : Except PyErr Bool :=
  if pyStartsWith hashed "$argon2" then
    .ok (hashed == argon2Hash password)
  else
    .error (.valueError "Password verification failed")

/-- Embeds `src/core/security_unified.py::get_password_hash`: dispatches on the
configured algorithm (`ARGON2_AVAILABLE` is taken to hold). -/
def unifiedGetPasswordHash (alg : HashAlg) (password : String) : String :=
  match alg with
  | .bcrypt => bcryptHash password
  | .argon2 => argon2Hash password

/-- Embeds `src/core/security_unified.py::verify_password`: auto-detects the hash
format from its prefix (`$2b$`/`$2a$` → bcrypt, `$argon2` → Argon2) and
falls back to the configured algorithm on an unrecognized prefix. -/
def unifiedVerifyPassword (alg : HashAlg) (plain hashed : String) :
    Except PyErr Bool :=
  if pyStartsWith hashed "$2b$" || pyStartsWith hashed "$2a$" then
    bcryptCheckpw plain hashed
  else if pyStartsWith hashed "$argon2" then
    argon2VerifyPassword plain hashed
  else
    match alg with
    | .bcrypt => bcryptCheckpw plain hashed
    | .argon2 => argon2VerifyPassword plain hashed

/-- The `current_type` string computed by
`src/core/security_unified.py::upgrade_password_hash` from the prefix of
the stored hash. -/
def hashTypeOf (h : String) : String :=
  if pyStartsWith h "$2b$" || pyStartsWith h "$2a$" then "bcrypt"
  else if pyStartsWith h "$argon2" then "argon2"
  else "unknown"

/-- Embeds `src/core/security_argon2.py::rehash_password_if_needed`: returns a
fresh Argon2 hash when the library's needs-rehash check says the stored
hash's parameters are outdated, else `none`.  The needs-rehash check itself
(`ph.check_needs_rehash`) lives in the external argon2 library and is
passed in as an oracle `needsRehash` on the stored hash. -/
def rehashPasswordIfNeeded (needsRehash : String → Bool)
    (plain current : String) : Option String :=
  if needsRehash current then some (argon2Hash plain) else none

/-- Embeds `src/core/security_unified.py::upgrade_password_hash`: rehash under the
configured algorithm when the detected type differs from it; otherwise, for
Argon2, defer to the needs-rehash check; otherwise no upgrade. -/
def upgradePasswordHash (alg : HashAlg) (needsRehash : String → Bool)
    (plain current : String) : Option String :=
  let ctype := hashTypeOf current
  if ctype ≠ alg.name then
    some (unifiedGetPasswordHash alg plain)
  else if ctype == "argon2" then
    rehashPasswordIfNeeded needsRehash plain current
  else
    none

/-! ## Configuration

`src/core/config.py` is not among the provided sources; every module reads
`settings` from it.  Modelled from the spec: the configuration carries the
chosen hash algorithm (§4.1), the access-token TTL in minutes (§4.2, used
by `create_access_token` callers), and the reset-token JWT validity in
hours (`EMAIL_RESET_TOKEN_EXPIRE_HOURS`, used by
`src/utils/auth.py::generate_password_reset_token`).  The argon2
needs-rehash oracle rides along so that the services can call
`upgrade_password_hash`. -/
structure Settings where
  passwordHashAlgorithm : HashAlg
  accessTokenExpireMinutes : Nat
  emailResetTokenExpireHours : Nat
  needsRehash : String → Bool

/-! ## Token codec and token hashing -/

/-- Embeds `create_access_token` (`src/core/security.py`): a compact signed token
carrying the subject and the expiry `now + expires_delta`; its signed
payload is modelled as a tagged string over those two claims. -/
def createAccessToken (subject : Nat) (expiresAt : Nat) : String :=
  "jwt|" ++ toString subject ++ "|" ++ toString expiresAt

/-- Embeds `src/utils/auth.py::generate_password_reset_token`: a JWT over
`{exp, nbf, sub = email}` with
`exp = now + EMAIL_RESET_TOKEN_EXPIRE_HOURS`. -/
def generatePasswordResetToken (email : String) (expiresAt : Nat) : String :=
  "rst|" ++ toString expiresAt ++ "|" ++ email

/-- Splits a character list at every occurrence of the separator, the way
`str.split` does; used to decode the modelled token payloads. -/
def splitOnChar (sep : Char) : List Char → List (List Char)
  | [] => [[]]
  | c :: cs =>
    match splitOnChar sep cs with
    | [] => if c == sep then [[], []] else [[c]]
    | h :: t => if c == sep then [] :: h :: t else (c :: h) :: t

/-- Parses a non-empty all-digit character list as a decimal number. -/
def parseNatAux (acc : Nat) : List Char → Option Nat
  | [] => some acc
  | c :: cs =>
    if c.isDigit then parseNatAux (acc * 10 + (c.toNat - 48)) cs else none

/-- Parser for the numeric claim of a modelled token payload. -/
def parseNatClaim : List Char → Option Nat
  | [] => none
  | l => parseNatAux 0 l

/-- Embeds `src/utils/auth.py::verify_password_reset_token`: decodes the JWT and
returns its subject email, or `None` when the token is structurally
invalid or its `exp` claim has passed (`jwt.decode` enforces expiry). -/
def verifyPasswordResetToken (token : String) (now : Nat) : Option String :=
  match (splitOnChar '|' token.data).map String.mk with
  | ["rst", e, email] =>
    match parseNatClaim e.data with
    | some expiresAt => if now < expiresAt then some email else none
    | none => none
  | _ => none

/-- Embeds `AuthService._hash_token`: the SHA-256 hex digest under which raw
secrets are stored.  SHA-256 is an external primitive; modelled from the
spec (§3: possession of the raw value is required to match), i.e. as an
injective tag. -/
def hashToken (token : String) : String :=
  "sha256|" ++ token

/-! ## Data model (`src/apps/auth/models.py`, `src/apps/users/models.py`) -/

/-- Embeds `User` record of the credential store (fields used by the auth core). -/
structure User where
  id : Nat
  email : String
  hashed_password : String
  is_active : Bool
  is_superuser : Bool
deriving DecidableEq, Repr

/-- Embeds `RefreshToken` row (`auth_refresh_tokens`). -/
structure RefreshTokenRow where
  token_hash : String
  user_id : Nat
  expires_at : Nat
  revoked : Bool
  revoked_at : Option Nat
  device_id : Option String
  user_agent : Option String
  ip_address : Option String
deriving DecidableEq, Repr

/-- Embeds `RefreshToken.is_valid`: not revoked and not yet expired. -/
def RefreshTokenRow.isValid (t : RefreshTokenRow) (now : Nat) : Bool :=
  !t.revoked && decide (now < t.expires_at)

/-- Embeds `RefreshToken.revoke`: sets `revoked` and stamps `revoked_at`. -/
def RefreshTokenRow.doRevoke (t : RefreshTokenRow) (now : Nat) :
    RefreshTokenRow :=
  { t with revoked := true, revoked_at := some now }

/-- Embeds `PasswordResetToken` row (`auth_password_reset_tokens`). -/
structure ResetTokenRow where
  token_hash : String
  user_id : Nat
  email : String
  expires_at : Nat
  used : Bool
  used_at : Option Nat
  ip_address : Option String
  user_agent : Option String
deriving DecidableEq, Repr

/-- Embeds `PasswordResetToken.is_valid`: unused and not yet expired (the
timezone normalization of the source collapses in the `Nat` model). -/
def ResetTokenRow.isValid (t : ResetTokenRow) (now : Nat) : Bool :=
  !t.used && decide (now < t.expires_at)

/-- Embeds `PasswordResetToken.mark_used`. -/
def ResetTokenRow.markUsed (t : ResetTokenRow) (now : Nat) : ResetTokenRow :=
  { t with used := true, used_at := some now }

/-- Embeds `LoginAttempt` row (`auth_login_attempts`), append-only. -/
structure LoginAttemptRow where
  email : String
  successful : Bool
  failure_reason : Option String
  ip_address : Option String
  user_agent : Option String
  user_id : Option Nat
  created_at : Nat
deriving DecidableEq, Repr

/-- Embeds `UserSession` row (`src/apps/users/models.py`), the fields the auth
core touches. -/
structure UserSessionRow where
  id : Nat
  user_id : Nat
  session_token : String
  is_active : Bool
  expires_at : Nat
deriving DecidableEq, Repr

/-- The relational state the authentication core reads and writes. -/
structure DB where
  users : List User
  refresh_tokens : List RefreshTokenRow
  reset_tokens : List ResetTokenRow
  login_attempts : List LoginAttemptRow
  sessions : List UserSessionRow
deriving DecidableEq, Repr

/-! ## Python `is` on column attributes

Several SQLAlchemy filters in the source are written with the Python
identity operator instead of a column comparison, e.g.
`RefreshToken.revoked is False` (services.py line 167, 255, 271),
`PasswordResetToken.used is False` (line 355),
`LoginAttempt.successful is False` (line 525) and
`UserSession.is_active is True` (users/services.py line 509).
`X is False` applied to an `InstrumentedAttribute` object compares object
identity with the `False` singleton and therefore evaluates to the Python
constant `False`; SQLAlchemy coerces that constant to the SQL literal
`FALSE` inside the enclosing conjunction.  The embedded filters carry the
resulting constants under the names below so that each query can be diffed
against its source text. -/

/-- Value of `<Column> is False` on a column attribute: the constant
`False`. -/
def colIsFalse : Bool := false

/-- Value of `<Column> is True` on a column attribute: also the constant
`False` (identity with the `True` singleton fails just the same). -/
def colIsTrue : Bool := false

/-- Embeds `uuid.UUID(user_id)` where `user_id` is already a `uuid.UUID` (as in
`AuthService.logout_user`, whose callers pass `current_user.id`): the
constructor treats the argument as its `hex` parameter and calls
`.replace` on it, raising `AttributeError`. -/
def uuidOfUuid (_userId : Nat) : Except PyErr Nat :=
  .error (.attributeError "UUID object has no attribute replace")

/-! ## Request/response schemas (`src/apps/auth/schemas.py`) -/

/-- Embeds `LoginRequest`. -/
structure LoginRequest where
  email : String
  password : String
  remember_me : Bool
  device_id : Option String
deriving DecidableEq, Repr

/-- Embeds `TokenResponse`. -/
structure TokenResponse where
  access_token : String
  refresh_token : Option String
  token_type : String
  expires_in : Nat
deriving DecidableEq, Repr

/-- Embeds `AuthResult` (`src/apps/auth/services.py`). -/
structure AuthResult where
  user : User
  tokens : TokenResponse
  session_id : Nat
deriving DecidableEq, Repr

/-- Embeds `str(e)` for the embedded exceptions: the carried message. -/
def PyErr.message : PyErr → String
  | .invalidCredentials m => m
  | .userNotFound m => m
  | .inactiveUser m => m
  | .invalidToken m => m
  | .tooManyAttempts m => m
  | .valueError m => m
  | .attributeError m => m

/-- The exception classes caught by
`except (UserNotFoundError, InvalidCredentialsError)` in
`AuthService.authenticate_user`. -/
def PyErr.caughtAtLogin : PyErr → Bool
  | .userNotFound _ => true
  | .invalidCredentials _ => true
  | _ => false

/-! ## UserService (`src/apps/users/services.py`) -/

/-- Embeds `UserService.get_user_by_email`. -/
def getUserByEmail (db : DB) (email : String) : Option User :=
  db.users.find? (fun u => u.email == email)

/-- Embeds `session.get(User, user_id)`. -/
def getUserById (db : DB) (userId : Nat) : Option User :=
  db.users.find? (fun u => u.id == userId)

/-- Embeds `UserService.authenticate_user`: raises `InvalidCredentialsError` when
the email resolves to no user or the password does not verify, then
`InactiveUserError` for an inactive account, and on success applies the
hash upgrade (persisting a new hash when one is produced). -/
def usersAuthenticateUser (st : Settings) (db : DB)
    (email password : String) : Except PyErr User × DB :=
  match getUserByEmail db email with
  | none => (.error (.invalidCredentials "Invalid email or password"), db)
  | some user =>
    match unifiedVerifyPassword st.passwordHashAlgorithm password
        user.hashed_password with
    | .error e => (.error e, db)
    | .ok false => (.error (.invalidCredentials "Invalid email or password"), db)
    | .ok true =>
      if !user.is_active then
        (.error (.inactiveUser "User account is inactive"), db)
      else
        match upgradePasswordHash st.passwordHashAlgorithm st.needsRehash
            password user.hashed_password with
        | some newHash =>
          let user2 := { user with hashed_password := newHash }
          let users2 := db.users.map
            (fun u => if u.id == user.id then user2 else u)
          (.ok user2, { db with users := users2 })
        | none => (.ok user, db)

/-- Embeds `UserService.get_active_sessions`: the filter conjoins the owner
match, `UserSession.is_active is True` (see `colIsTrue`) and the expiry
bound. -/
def getActiveSessions (db : DB) (userId : Nat) (now : Nat) :
    List UserSessionRow :=
  db.sessions.filter (fun s =>
    s.user_id == userId && colIsTrue && decide (now < s.expires_at))

/-- Embeds `UserService.invalidate_user_sessions`: marks each session returned by
`get_active_sessions` inactive and returns the count. -/
def invalidateUserSessions (db : DB) (userId : Nat) (now : Nat) : Nat × DB :=
  let active := getActiveSessions db userId now
  let sessions2 := db.sessions.map
    (fun s => if active.contains s then { s with is_active := false } else s)
  (active.length, { db with sessions := sessions2 })

/-! ## AuthService (`src/apps/auth/services.py`) -/

/-- Embeds `AuthService._check_login_attempts`: counts rows matching
`email == <email> AND (successful is False) AND created_at >= now - 15min`,
further narrowed by the ip when one is supplied, and denies when the count
reaches 5. -/
def checkLoginAttempts (db : DB) (email : String) (ip : Option String)
    (now : Nat) : Except PyErr Unit :=
  let since := now - 15 * 60
  let failedAttempts := db.login_attempts.filter (fun a =>
    a.email == email && colIsFalse && decide (since ≤ a.created_at) &&
    (match ip with
     | some addr => a.ip_address == some addr
     | none => true))
  if 5 ≤ failedAttempts.length then
    .error (.tooManyAttempts
      "Too many failed login attempts. Please try again later.")
  else
    .ok ()

/-- Embeds `AuthService._log_login_attempt`: pure insert. -/
def logLoginAttempt (db : DB) (email : String) (successful : Bool)
    (userId : Option Nat) (failureReason : Option String)
    (ip ua : Option String) (now : Nat) : DB :=
  { db with login_attempts := db.login_attempts ++
      [{ email := email, successful := successful,
         failure_reason := failureReason, ip_address := ip,
         user_agent := ua, user_id := userId, created_at := now }] }

/-- Embeds `AuthService._create_tokens`: always mints an access token with the
configured TTL; when `remember_me` holds it also draws a fresh URL-safe
secret (passed in as `freshSecret`), stores its hash with a 30-day expiry
and hands the raw secret back in the response. -/
def createTokens (st : Settings) (db : DB) (user : User) (rememberMe : Bool)
    (deviceId ip ua : Option String) (freshSecret : String) (now : Nat) :
    TokenResponse × DB :=
  let expiresInSec := st.accessTokenExpireMinutes * 60
  let accessToken := createAccessToken user.id (now + expiresInSec)
  if rememberMe then
    let row : RefreshTokenRow :=
      { token_hash := hashToken freshSecret, user_id := user.id,
        expires_at := now + 30 * 86400, revoked := false, revoked_at := none,
        device_id := deviceId, user_agent := ua, ip_address := ip }
    ({ access_token := accessToken, refresh_token := some freshSecret,
       token_type := "bearer", expires_in := expiresInSec },
     { db with refresh_tokens := db.refresh_tokens ++ [row] })
  else
    ({ access_token := accessToken, refresh_token := none,
       token_type := "bearer", expires_in := expiresInSec }, db)

/-- Embeds `AuthService._create_user_session`: inserts a `UserSession` with a
fresh id and token (passed in) expiring with the access token. -/
def createUserSession (st : Settings) (db : DB) (userId : Nat)
    (ip ua : Option String) (freshSessionToken : String)
    (freshSessionId : Nat) (now : Nat) : Nat × DB :=
  let _ := (ip, ua)
  (freshSessionId,
   { db with sessions := db.sessions ++
      [{ id := freshSessionId, user_id := userId,
         session_token := freshSessionToken, is_active := true,
         expires_at := now + st.accessTokenExpireMinutes * 60 }] })

/-- Embeds `AuthService.authenticate_user`: throttle check, then credential
verification; `UserNotFoundError`/`InvalidCredentialsError` are logged as
a failed attempt and re-raised as the generic `InvalidCredentialsError`;
on success tokens are minted, a session is recorded and a successful
attempt logged. -/
def authAuthenticateUser (st : Settings) (db : DB) (login : LoginRequest)
    (ip ua : Option String) (freshSecret freshSessionToken : String)
    (freshSessionId : Nat) (now : Nat) : Except PyErr AuthResult × DB :=
  match checkLoginAttempts db login.email ip now with
  | .error e => (.error e, db)
  | .ok _ =>
    match usersAuthenticateUser st db login.email login.password with
    | (.error e, db1) =>
      if e.caughtAtLogin then
        let db2 := logLoginAttempt db1 login.email false none
          (some e.message) ip ua now
        (.error (.invalidCredentials "Invalid email or password"), db2)
      else
        (.error e, db1)
    | (.ok user, db1) =>
      let td := createTokens st db1 user login.remember_me login.device_id
        ip ua freshSecret now
      let sd := createUserSession st td.snd user.id ip ua freshSessionToken
        freshSessionId now
      let db4 := logLoginAttempt sd.snd login.email true (some user.id)
        none ip ua now
      (.ok { user := user, tokens := td.fst, session_id := sd.fst }, db4)

/-- Embeds `AuthService.refresh_access_token`: looks the hashed token up under
the filter `token_hash == <hash> AND (revoked is False)` (see
`colIsFalse`), checks `is_valid`, re-fetches the user and re-checks
`is_active`, then mints a new access token. -/
def refreshAccessToken (st : Settings) (db : DB) (refreshToken : String)
    (now : Nat) : Except PyErr TokenResponse × DB :=
  let tokenHash := hashToken refreshToken
  match db.refresh_tokens.find?
      (fun t => t.token_hash == tokenHash && colIsFalse) with
  | none => (.error (.invalidToken "Invalid or expired refresh token"), db)
  | some t =>
    if !t.isValid now then
      (.error (.invalidToken "Invalid or expired refresh token"), db)
    else
      match getUserById db t.user_id with
      | none => (.error (.invalidToken "User not found or inactive"), db)
      | some u =>
        if !u.is_active then
          (.error (.invalidToken "User not found or inactive"), db)
        else
          let expiresInSec := st.accessTokenExpireMinutes * 60
          (.ok { access_token := createAccessToken u.id (now + expiresInSec),
                 refresh_token := none, token_type := "bearer",
                 expires_in := expiresInSec }, db)

/-- Revokes the first row matching the predicate (`.first()` followed by
`revoke()` in `logout_user`'s single-token branch). -/
def revokeFirstMatch (p : RefreshTokenRow → Bool) (now : Nat) :
    List RefreshTokenRow → List RefreshTokenRow
  | [] => []
  | t :: ts =>
    if p t then t.doRevoke now :: ts else t :: revokeFirstMatch p now ts

/-- Embeds `AuthService.logout_user`: revokes all rows matching
`user_id == <id> AND (revoked is False)` when `all_devices`, else the one
row matching hash, owner and the same `revoked is False` literal; then
calls `invalidate_user_sessions(uuid.UUID(user_id))`.  Evaluating
`uuid.UUID(user_id)` raises (see `uuidOfUuid`) before the commit, so the
pending revocations are rolled back and the exception propagates. -/
def logoutUser (db : DB) (userId : Nat) (refreshToken : Option String)
    (allDevices : Bool) (now : Nat) : Except PyErr Bool × DB :=
  let pending : DB :=
    if allDevices then
      let rts := db.refresh_tokens.map
        (fun t => if t.user_id == userId && colIsFalse
                  then t.doRevoke now else t)
      { db with refresh_tokens := rts }
    else
      match refreshToken with
      | some rt =>
        let rts := revokeFirstMatch
          (fun t => t.token_hash == hashToken rt && t.user_id == userId &&
                    colIsFalse) now db.refresh_tokens
        { db with refresh_tokens := rts }
      | none => db
  match uuidOfUuid userId with
  | .error e => (.error e, db)
  | .ok uid2 =>
    let r := invalidateUserSessions pending uid2 now
    (.ok true, r.snd)

/-- Embeds `AuthService.request_password_reset`: raises `UserNotFoundError` for
an unknown email; otherwise issues a signed reset token, stores its hash
with a 1-hour row expiry and returns the raw token. -/
def requestPasswordReset (st : Settings) (db : DB) (email : String)
    (ip ua : Option String) (now : Nat) : Except PyErr String × DB :=
  match getUserByEmail db email with
  | none => (.error (.userNotFound "User not found"), db)
  | some user =>
    let resetToken := generatePasswordResetToken email
      (now + st.emailResetTokenExpireHours * 3600)
    let row : ResetTokenRow :=
      { token_hash := hashToken resetToken, user_id := user.id,
        email := email, expires_at := now + 3600, used := false,
        used_at := none, ip_address := ip, user_agent := ua }
    (.ok resetToken, { db with reset_tokens := db.reset_tokens ++ [row] })

/-- Embeds `AuthService.reset_password`: decodes the token to an email, looks the
ledger row up under
`token_hash == <hash> AND email == <email> AND (used is False)` (see
`colIsFalse`), checks `is_valid`, then stores the bcrypt hash of the new
password (`get_password_hash` is imported from `src.core.security`) and
marks the row used, committing both together. -/
def resetPassword (db : DB) (token newPassword : String) (now : Nat) :
    Except PyErr Bool × DB :=
  match verifyPasswordResetToken token now with
  | none => (.error (.invalidToken "Invalid or expired reset token"), db)
  | some email =>
    let tokenHash := hashToken token
    match db.reset_tokens.find? (fun t =>
        t.token_hash == tokenHash && t.email == email && colIsFalse) with
    | none => (.error (.invalidToken "Invalid or expired reset token"), db)
    | some row =>
      if !row.isValid now then
        (.error (.invalidToken "Invalid or expired reset token"), db)
      else
        match getUserById db row.user_id with
        | none => (.error (.userNotFound "User not found"), db)
        | some user =>
          let hashed := securityGetPasswordHash newPassword
          (.ok true,
           { db with
             users := db.users.map (fun u =>
               if u.id == user.id then { u with hashed_password := hashed }
               else u),
             reset_tokens := db.reset_tokens.map (fun t =>
               if t.token_hash == row.token_hash then t.markUsed now
               else t) })

/-- Embeds `reset_password` with the ledger filter's third conjunct read as the
column comparison `PasswordResetToken.used == False` that the surrounding
query text intends, instead of the constant produced by the identity test
(`colIsFalse`); everything else is identical to `resetPassword`.  Used to
separate the effect of the broken filter from the rest of the flow. -/
def resetPasswordIntended (db : DB) (token newPassword : String)
    (now : Nat) : Except PyErr Bool × DB :=
  match verifyPasswordResetToken token now with
  | none => (.error (.invalidToken "Invalid or expired reset token"), db)
  | some email =>
    let tokenHash := hashToken token
    match db.reset_tokens.find? (fun t =>
        t.token_hash == tokenHash && t.email == email && !t.used) with
    | none => (.error (.invalidToken "Invalid or expired reset token"), db)
    | some row =>
      if !row.isValid now then
        (.error (.invalidToken "Invalid or expired reset token"), db)
      else
        match getUserById db row.user_id with
        | none => (.error (.userNotFound "User not found"), db)
        | some user =>
          let hashed := securityGetPasswordHash newPassword
          (.ok true,
           { db with
             users := db.users.map (fun u =>
               if u.id == user.id then { u with hashed_password := hashed }
               else u),
             reset_tokens := db.reset_tokens.map (fun t =>
               if t.token_hash == row.token_hash then t.markUsed now
               else t) })

/-- Embeds `AuthService.change_password`: verifies the current password with the
bcrypt-only `verify_password` imported from `src.core.security` (not the
prefix-dispatching unified module) and stores the bcrypt hash of the new
password with the equally bcrypt-only `get_password_hash`. -/
def changePassword (db : DB) (userId : Nat)
    (currentPassword newPassword : String) : Except PyErr Bool × DB :=
  match getUserById db userId with
  | none => (.error (.userNotFound "User not found"), db)
  | some user =>
    match securityVerifyPassword currentPassword user.hashed_password with
    | .error e => (.error e, db)
    | .ok false =>
      (.error (.invalidCredentials "Current password is incorrect"), db)
    | .ok true =>
      let hashed := securityGetPasswordHash newPassword
      (.ok true,
       { db with users := db.users.map (fun u =>
           if u.id == userId then { u with hashed_password := hashed }
           else u) })

/-! ## Presentation layer (`src/apps/auth/views.py`) -/

/-- Embeds `request_password_reset` endpoint: on the service's success path the
reset email is rendered and sent (delivery is modelled as succeeding) and
the literal `"Password recovery email sent"` is returned; any exception
out of the service — in particular `UserNotFoundError` for an unknown
email — is caught by the bare `except Exception` and converted to the
generic literal. -/
def requestPasswordResetEndpoint (st : Settings) (db : DB) (email : String)
    (ip ua : Option String) (now : Nat) : String × DB :=
  match requestPasswordReset st db email ip ua now with
  | (.ok _, db2) => ("Password recovery email sent", db2)
  | (.error _, _) => ("If the email exists, a reset link has been sent", db)

/-! ## Concrete fixtures used by the witnesses and counterexamples -/

/-- A configuration with bcrypt selected, a 30-minute access-token TTL and
the default 48-hour reset-JWT validity. -/
def settings1 : Settings :=
  { passwordHashAlgorithm := .bcrypt, accessTokenExpireMinutes := 30,
    emailResetTokenExpireHours := 48, needsRehash := fun _ => false }

/-- An active user with a bcrypt credential. -/
def alice : User :=
  { id := 1, email := "user@x.com", hashed_password := bcryptHash "correct-pw1",
    is_active := true, is_superuser := false }

/-- A failed login attempt for `alice`'s email recorded at time `900 + k`. -/
def failedAttempt (k : Nat) : LoginAttemptRow :=
  { email := "user@x.com", successful := false,
    failure_reason := some "Invalid email or password", ip_address := none,
    user_agent := none, user_id := some 1, created_at := 900 + k }

/-- A database holding `alice` and five failed attempts for her email,
all within the trailing 15-minute window of the reference time 1000. -/
def throttledDb : DB :=
  { users := [alice], refresh_tokens := [], reset_tokens := [],
    login_attempts := [failedAttempt 0, failedAttempt 1, failedAttempt 2,
      failedAttempt 3, failedAttempt 4],
    sessions := [] }

/-- A login request for `alice` with her correct password. -/
def aliceLogin : LoginRequest :=
  { email := "user@x.com", password := "correct-pw1", remember_me := false,
    device_id := none }

/-- Raw secret of a stored refresh token. -/
def rtRaw : String := "raw-refresh-secret-abc"

/-- An unrevoked, unexpired (at time 1000) refresh-token row for `alice`. -/
def rtRow : RefreshTokenRow :=
  { token_hash := hashToken rtRaw, user_id := 1, expires_at := 2000000,
    revoked := false, revoked_at := none, device_id := none,
    user_agent := none, ip_address := none }

/-- A database in which `rtRaw`'s row is valid and its owner is active. -/
def refreshDb : DB :=
  { users := [alice], refresh_tokens := [rtRow], reset_tokens := [],
    login_attempts := [], sessions := [] }

/-- The raw reset token issued for `alice` at time 1000 under `settings1`
(48-hour JWT validity). -/
def resetTok : String :=
  generatePasswordResetToken "user@x.com" (1000 + 48 * 3600)

/-- The ledger row `request_password_reset` stores for `resetTok` at
time 1000: unused, expiring at 1000 + 3600. -/
def resetRow : ResetTokenRow :=
  { token_hash := hashToken resetTok, user_id := 1, email := "user@x.com",
    expires_at := 1000 + 3600, used := false, used_at := none,
    ip_address := none, user_agent := none }

/-- A database in which `resetTok`'s row is unused and unexpired at time
1100, `alice` exists, and one valid refresh token of hers is outstanding. -/
def resetDb : DB :=
  { users := [alice], refresh_tokens := [rtRow], reset_tokens := [resetRow],
    login_attempts := [], sessions := [] }

/-- An inactive user with a bcrypt credential. -/
def bob : User :=
  { id := 2, email := "bob@x.com", hashed_password := bcryptHash "bob-pass-99",
    is_active := false, is_superuser := false }

/-- A database holding only the inactive `bob`, with no recorded attempts. -/
def bobDb : DB :=
  { users := [bob], refresh_tokens := [], reset_tokens := [],
    login_attempts := [], sessions := [] }

/-- A login request for `bob` with his correct password. -/
def bobLogin : LoginRequest :=
  { email := "bob@x.com", password := "bob-pass-99", remember_me := false,
    device_id := none }

/-- An active user whose stored credential is in Argon2 format. -/
def carol : User :=
  { id := 3, email := "carol@x.com",
    hashed_password := argon2Hash "carol-pass-1", is_active := true,
    is_superuser := false }

/-- A database holding `carol`. -/
def carolDb : DB :=
  { users := [carol], refresh_tokens := [], reset_tokens := [],
    login_attempts := [], sessions := [] }

/-! ## Helper lemmas -/

theorem listIsPre_self_append (p t : List Char) : listIsPre p (p ++ t) = true := by
  induction p with
  | nil => rfl
  | cons a as ih => simp [listIsPre, ih]

theorem listIsPre_append_eq (pre c t : List Char) (h : pre.length ≤ c.length) :
    listIsPre pre (c ++ t) = listIsPre pre c := by
  induction pre generalizing c with
  | nil => rfl
  | cons a as ih =>
    cases c with
    | nil => simp at h
    | cons b bs =>
      simp only [List.cons_append, List.append_eq, listIsPre]
      rw [ih bs (by simpa using h)]

theorem listIsPre_true_iff (pre l : List Char) :
    listIsPre pre l = true ↔ ∃ t, l = pre ++ t := by
  induction pre generalizing l with
  | nil => simp [listIsPre]
  | cons a as ih =>
    cases l with
    | nil => simp [listIsPre]
    | cons b bs =>
      simp only [listIsPre, Bool.and_eq_true, beq_iff_eq, ih,
        List.cons_append, List.cons.injEq]
      constructor
      · rintro ⟨hab, t, ht⟩
        exact ⟨t, hab.symm, ht⟩
      · rintro ⟨t, hba, ht⟩
        exact ⟨hba.symm, t, ht⟩

theorem string_append_cancel {a p q : String} (h : a ++ p = a ++ q) : p = q := by
  have h2 := congrArg String.data h
  rw [String.data_append, String.data_append] at h2
  exact congrArg String.mk (List.append_cancel_left h2)

theorem string_append_beq (a p q : String) : ((a ++ p) == (a ++ q)) = (p == q) := by
  by_cases hpq : p = q
  · subst hpq; simp
  · rw [beq_eq_false_iff_ne.mpr (fun hc => hpq (string_append_cancel hc)),
      beq_eq_false_iff_ne.mpr hpq]

theorem filter_false_of_all {α : Type} (l : List α) (p : α → Bool)
    (h : ∀ a, p a = false) : l.filter p = [] := by
  induction l with
  | nil => rfl
  | cons a t ih => simp [List.filter_cons, h, ih]

theorem bcryptHash_sw_2b (p : String) :
    pyStartsWith (bcryptHash p) "$2b$" = true := by
  unfold pyStartsWith bcryptHash
  rw [String.data_append, listIsPre_append_eq _ _ _ (by decide)]
  decide

theorem bcryptHash_sw_2a (p : String) :
    pyStartsWith (bcryptHash p) "$2a$" = false := by
  unfold pyStartsWith bcryptHash
  rw [String.data_append, listIsPre_append_eq _ _ _ (by decide)]
  decide

theorem bcryptHash_sw_argon (p : String) :
    pyStartsWith (bcryptHash p) "$argon2" = false := by
  unfold pyStartsWith bcryptHash
  rw [String.data_append, listIsPre_append_eq _ _ _ (by decide)]
  decide

theorem argon2Hash_sw_argon (p : String) :
    pyStartsWith (argon2Hash p) "$argon2" = true := by
  unfold pyStartsWith argon2Hash
  rw [String.data_append, listIsPre_append_eq _ _ _ (by decide)]
  decide

theorem argon2Hash_sw_2b (p : String) :
    pyStartsWith (argon2Hash p) "$2b$" = false := by
  unfold pyStartsWith argon2Hash
  rw [String.data_append, listIsPre_append_eq _ _ _ (by decide)]
  decide

theorem argon2Hash_sw_2a (p : String) :
    pyStartsWith (argon2Hash p) "$2a$" = false := by
  unfold pyStartsWith argon2Hash
  rw [String.data_append, listIsPre_append_eq _ _ _ (by decide)]
  decide

theorem sw_argon_not_bcrypt (h : String)
    (ha : pyStartsWith h "$argon2" = true) :
    pyStartsWith h "$2b$" = false ∧ pyStartsWith h "$2a$" = false := by
  unfold pyStartsWith at ha ⊢
  obtain ⟨t, ht⟩ := (listIsPre_true_iff _ _).mp ha
  rw [ht]
  constructor
  · rw [listIsPre_append_eq _ _ _ (by decide)]; decide
  · rw [listIsPre_append_eq _ _ _ (by decide)]; decide

theorem unifiedVerify_bcryptHash (alg : HashAlg) (q p : String) :
    unifiedVerifyPassword alg q (bcryptHash p) = .ok (p == q) := by
  unfold unifiedVerifyPassword bcryptCheckpw bcryptVerify
  rw [bcryptHash_sw_2b]
  simp [bcryptHash, string_append_beq]

theorem unifiedVerify_argon2Hash (alg : HashAlg) (q p : String) :
    unifiedVerifyPassword alg q (argon2Hash p) = .ok (p == q) := by
  unfold unifiedVerifyPassword argon2VerifyPassword
  rw [argon2Hash_sw_2b, argon2Hash_sw_2a, argon2Hash_sw_argon]
  simp [argon2Hash, string_append_beq]

theorem throttle_check_allows (db : DB) (email : String) (ip : Option String)
    (now : Nat) : checkLoginAttempts db email ip now = .ok () := by
  simp [checkLoginAttempts, colIsFalse]

theorem find?_and_colFalse {α : Type} (l : List α) (p : α → Bool) :
    l.find? (fun a => p a && colIsFalse) = none :=
  List.find?_eq_none.mpr (fun x _ => by simp [colIsFalse])

/-! ## Claims -/

/-- C1: the claim says that with at least 5 failed attempts recorded for an
email in the trailing 15-minute window, the next login attempt for it fails
with TooManyAttempts before credential verification.  In the code the
attempt query's conjunct `LoginAttempt.successful is False` renders as the
constant false, so the query matches no rows and the throttle never denies:
`_check_login_attempts` allows every request, and on `throttledDb` — five
failed attempts for `user@x.com` recorded 100 seconds before the call —
a login with correct credentials succeeds instead of failing. -/
theorem claim_c1_throttle_never_denies :
    (∀ (db : DB) (email : String) (ip : Option String) (now : Nat),
        checkLoginAttempts db email ip now = .ok ()) ∧
    exOk (authAuthenticateUser settings1 throttledDb aliceLogin none none
        "fresh-secret" "fresh-session-token" 7 1000).fst = true := by
  refine ⟨throttle_check_allows, ?_⟩
  rfl

/-- C2: the claim says refresh succeeds on a stored, non-revoked, unexpired
token of an active user and fails with InvalidToken otherwise.  In the code
the lookup filter's conjunct `RefreshToken.revoked is False` renders as the
constant false, so no row is ever found and *every* refresh call — the
concrete `refreshDb` instance has a valid token of the active `alice` —
fails with InvalidToken. -/
theorem claim_c2_refresh_never_succeeds :
    (∀ (st : Settings) (db : DB) (tok : String) (now : Nat),
        refreshAccessToken st db tok now =
          (.error (.invalidToken "Invalid or expired refresh token"), db)) ∧
    rtRow.isValid 1000 = true ∧ alice.is_active = true ∧
    refreshAccessToken settings1 refreshDb rtRaw 1000 =
      (.error (.invalidToken "Invalid or expired refresh token"), refreshDb) := by
  refine ⟨?_, rfl, rfl, rfl⟩
  intro st db tok now
  simp only [refreshAccessToken, find?_and_colFalse]

/-- C3: the claim says the first `reset_password` with an unused, unexpired
token succeeds and changes the stored hash, and a second call fails.  In
the code the ledger lookup's conjunct `PasswordResetToken.used is False`
renders as the constant false, so even the first call fails with
InvalidToken on the valid `resetRow`.  Under `resetPasswordIntended` —
the same flow with the comparison the query text intends — the claimed
once-only behaviour does hold on the same state: the first call succeeds
and rewrites the stored hash, the second fails with InvalidToken. -/
theorem claim_c3_reset_first_redeem_fails :
    resetRow.isValid 1100 = true ∧
    resetPassword resetDb resetTok "brand-new-pw1" 1100 =
      (.error (.invalidToken "Invalid or expired reset token"), resetDb) ∧
    (resetPasswordIntended resetDb resetTok "brand-new-pw1" 1100).fst =
      .ok true ∧
    (resetPasswordIntended resetDb resetTok "brand-new-pw1" 1100).snd.users =
      [{ alice with hashed_password := bcryptHash "brand-new-pw1" }] ∧
    (resetPasswordIntended (resetPasswordIntended resetDb resetTok
        "brand-new-pw1" 1100).snd resetTok "second-pw-11" 1200).fst =
      .error (.invalidToken "Invalid or expired reset token") := by
  refine ⟨?_, ?_, ?_, ?_, ?_⟩ <;> rfl

/-- C4: the claim says logout revokes the selected refresh tokens, always
invalidates the user's sessions, and returns success.  In the code both
revocation queries carry the constant rendered by `revoked is False` (so
they match nothing), `invalidate_user_sessions` filters on
`is_active is True` (so it touches nothing), and `uuid.UUID(user_id)` —
whose argument is already a UUID — raises AttributeError before the
commit: every logout call raises and leaves the database unchanged, shown
concretely on `refreshDb` with `alice`'s valid outstanding token. -/
theorem claim_c4_logout_always_raises :
    (∀ (db : DB) (uid : Nat) (rt : Option String) (ad : Bool) (now : Nat),
        logoutUser db uid rt ad now =
          (.error (.attributeError "UUID object has no attribute replace"),
           db)) ∧
    (∀ (db : DB) (uid now : Nat),
        invalidateUserSessions db uid now = (0, db)) ∧
    logoutUser refreshDb 1 none true 1000 =
      (.error (.attributeError "UUID object has no attribute replace"),
       refreshDb) := by
  refine ⟨fun db uid rt ad now => rfl, ?_, rfl⟩
  intro db uid now
  simp [invalidateUserSessions, getActiveSessions, colIsTrue]

/-- C5: the claim says a password-reset request returns the same generic
success message whether or not the email belongs to a user.  In the code
the endpoint's success path returns the literal
"Password recovery email sent" while the exception path (unknown email)
returns "If the email exists, a reset link has been sent": on the same
database the two responses differ, so the response distinguishes an
existing email from a non-existing one. -/
theorem claim_c5_reset_request_distinguishes :
    (requestPasswordResetEndpoint settings1 refreshDb "user@x.com" none none
        1000).fst = "Password recovery email sent" ∧
    (requestPasswordResetEndpoint settings1 refreshDb "ghost@nowhere.com"
        none none 1000).fst =
      "If the email exists, a reset link has been sent" ∧
    (requestPasswordResetEndpoint settings1 refreshDb "user@x.com" none none
        1000).fst ≠
      (requestPasswordResetEndpoint settings1 refreshDb "ghost@nowhere.com"
        none none 1000).fst := by
  refine ⟨rfl, rfl, ?_⟩
  decide

/-- C7: the claim says a successful reset atomically updates the hash,
marks the row used and revokes all outstanding refresh tokens.  In the code
`reset_password` never succeeds at all (the `used is False` filter matches
no row), and its success path contains no refresh-token revocation:
on `resetDb` the call fails with InvalidToken, and under the
intended-comparison variant the reset succeeds yet leaves `alice`'s
outstanding refresh token exactly as it was — unrevoked. -/
theorem claim_c7_reset_revokes_nothing :
    resetPassword resetDb resetTok "brand-new-pw1" 1100 =
      (.error (.invalidToken "Invalid or expired reset token"), resetDb) ∧
    (resetPasswordIntended resetDb resetTok "brand-new-pw1" 1100).fst =
      .ok true ∧
    (resetPasswordIntended resetDb resetTok "brand-new-pw1"
        1100).snd.refresh_tokens = [rtRow] ∧
    rtRow.revoked = false ∧ rtRow.isValid 1200 = true := by
  refine ⟨?_, ?_, ?_, ?_, ?_⟩ <;> rfl

/-- C6 counterexample: `bob` is inactive and supplies his correct password;
the claim says the surfaced failure is the generic InvalidCredentials kind
and a failed attempt is recorded, but the call raises the distinct
`InactiveUserError` — which `AuthService.authenticate_user` does not catch
— and leaves the attempt ledger untouched (the returned state is `bobDb`
itself). -/
theorem claim_c6_inactive_leaks :
    authAuthenticateUser settings1 bobDb bobLogin none none "fresh-secret"
        "fresh-session-token" 7 1000 =
      (.error (.inactiveUser "User account is inactive"), bobDb) := by
  rfl

/-- C6 (amended): an unknown email or a wrong password both surface as the
generic InvalidCredentials error with a failed attempt recorded; but an
inactive account with a correct password surfaces as the distinct
`InactiveUserError`, uncaught by the login flow, with no attempt
recorded. -/
theorem claim_c6_failure_collapse :
    ∀ (st : Settings) (db : DB) (login : LoginRequest) (ip ua : Option String)
      (s1 s2 : String) (sid now : Nat),
      (getUserByEmail db login.email = none →
        authAuthenticateUser st db login ip ua s1 s2 sid now =
          (.error (.invalidCredentials "Invalid email or password"),
           logLoginAttempt db login.email false none
             (some "Invalid email or password") ip ua now)) ∧
      (∀ u, getUserByEmail db login.email = some u →
        unifiedVerifyPassword st.passwordHashAlgorithm login.password
            u.hashed_password = .ok false →
        authAuthenticateUser st db login ip ua s1 s2 sid now =
          (.error (.invalidCredentials "Invalid email or password"),
           logLoginAttempt db login.email false none
             (some "Invalid email or password") ip ua now)) ∧
      (∀ u, getUserByEmail db login.email = some u →
        unifiedVerifyPassword st.passwordHashAlgorithm login.password
            u.hashed_password = .ok true →
        u.is_active = false →
        authAuthenticateUser st db login ip ua s1 s2 sid now =
          (.error (.inactiveUser "User account is inactive"), db)) := by
  intro st db login ip ua s1 s2 sid now
  refine ⟨?_, ?_, ?_⟩
  · intro h
    simp [authAuthenticateUser, throttle_check_allows, usersAuthenticateUser,
      h, PyErr.caughtAtLogin, PyErr.message]
  · intro u hu hv
    simp [authAuthenticateUser, throttle_check_allows, usersAuthenticateUser,
      hu, hv, PyErr.caughtAtLogin, PyErr.message]
  · intro u hu hv hact
    simp [authAuthenticateUser, throttle_check_allows, usersAuthenticateUser,
      hu, hv, hact, PyErr.caughtAtLogin]

/-- Witness for the amended C6 at concrete inputs: a ghost email and a
wrong password on `bobDb` both yield the generic InvalidCredentials error
with a failed attempt appended, while inactive `bob` with his correct
password yields the distinct InactiveUserError with the state unchanged. -/
theorem claim_c6_failure_collapse_witness :
    authAuthenticateUser settings1 bobDb
        { email := "ghost@nowhere.com", password := "whatever-pw-1",
          remember_me := false, device_id := none } none none "s1" "s2" 7
        1000 =
      (.error (.invalidCredentials "Invalid email or password"),
       logLoginAttempt bobDb "ghost@nowhere.com" false none
         (some "Invalid email or password") none none 1000) ∧
    authAuthenticateUser settings1 bobDb
        { email := "bob@x.com", password := "wrong-pass-12",
          remember_me := false, device_id := none } none none "s1" "s2" 7
        1000 =
      (.error (.invalidCredentials "Invalid email or password"),
       logLoginAttempt bobDb "bob@x.com" false none
         (some "Invalid email or password") none none 1000) ∧
    authAuthenticateUser settings1 bobDb bobLogin none none "s1" "s2" 7
        1000 =
      (.error (.inactiveUser "User account is inactive"), bobDb) := by
  refine ⟨?_, ?_, ?_⟩
  · exact (claim_c6_failure_collapse settings1 bobDb _ none none "s1" "s2" 7
      1000).1 (by rfl)
  · exact (claim_c6_failure_collapse settings1 bobDb _ none none "s1" "s2" 7
      1000).2.1 bob (by rfl) (by rfl)
  · exact (claim_c6_failure_collapse settings1 bobDb bobLogin none none "s1"
      "s2" 7 1000).2.2 bob (by rfl) (by rfl) (by rfl)

/-- C8: under either configured algorithm, verifying a password against
its own hash dispatches on the hash's prefix back to the hashing family
and succeeds, and verifying any other password against that hash fails. -/
theorem claim_c8_verify_roundtrip :
    ∀ (alg : HashAlg) (p q : String),
      unifiedVerifyPassword alg p (unifiedGetPasswordHash alg p) = .ok true ∧
      (q ≠ p →
        unifiedVerifyPassword alg q (unifiedGetPasswordHash alg p) =
          .ok false) := by
  intro alg p q
  cases alg with
  | bcrypt =>
    refine ⟨?_, fun hne => ?_⟩
    · rw [show unifiedGetPasswordHash HashAlg.bcrypt p = bcryptHash p from rfl,
        unifiedVerify_bcryptHash, beq_self_eq_true]
    · rw [show unifiedGetPasswordHash HashAlg.bcrypt p = bcryptHash p from rfl,
        unifiedVerify_bcryptHash,
        beq_eq_false_iff_ne.mpr (fun h => hne h.symm)]
  | argon2 =>
    refine ⟨?_, fun hne => ?_⟩
    · rw [show unifiedGetPasswordHash HashAlg.argon2 p = argon2Hash p from rfl,
        unifiedVerify_argon2Hash, beq_self_eq_true]
    · rw [show unifiedGetPasswordHash HashAlg.argon2 p = argon2Hash p from rfl,
        unifiedVerify_argon2Hash,
        beq_eq_false_iff_ne.mpr (fun h => hne h.symm)]

/-- Witness for C8 with the inequality hypothesis discharged at two
concrete distinct passwords, under both algorithms. -/
theorem claim_c8_verify_roundtrip_witness :
    unifiedVerifyPassword .bcrypt "pw-two-22"
        (unifiedGetPasswordHash .bcrypt "pw-one-11") = .ok false ∧
    unifiedVerifyPassword .argon2 "pw-two-22"
        (unifiedGetPasswordHash .argon2 "pw-one-11") = .ok false :=
  ⟨(claim_c8_verify_roundtrip .bcrypt "pw-one-11" "pw-two-22").2 (by decide),
   (claim_c8_verify_roundtrip .argon2 "pw-one-11" "pw-two-22").2 (by decide)⟩

/-- C9: when the detected family of the stored hash differs from the
configured algorithm, the upgrade returns the configured algorithm's hash
of the password (which verifies and carries that algorithm's prefix);
bcrypt-on-bcrypt never upgrades; argon2-on-argon2 upgrades exactly when
the library's needs-rehash check says so. -/
theorem claim_c9_upgrade_policy :
    ∀ (alg : HashAlg) (needs : String → Bool) (p H : String),
      (hashTypeOf H = "bcrypt" → alg = .argon2 →
        upgradePasswordHash alg needs p H = some (argon2Hash p) ∧
        unifiedVerifyPassword alg p (argon2Hash p) = .ok true ∧
        pyStartsWith (argon2Hash p) "$argon2" = true) ∧
      (hashTypeOf H = "argon2" → alg = .bcrypt →
        upgradePasswordHash alg needs p H = some (bcryptHash p) ∧
        unifiedVerifyPassword alg p (bcryptHash p) = .ok true ∧
        pyStartsWith (bcryptHash p) "$2b$" = true) ∧
      (hashTypeOf H = "bcrypt" → alg = .bcrypt →
        upgradePasswordHash alg needs p H = none) ∧
      (hashTypeOf H = "argon2" → alg = .argon2 →
        upgradePasswordHash alg needs p H =
          if needs H then some (argon2Hash p) else none) := by
  intro alg needs p H
  refine ⟨?_, ?_, ?_, ?_⟩
  · intro hH halg
    subst halg
    refine ⟨?_, ?_, argon2Hash_sw_argon p⟩
    · simp only [upgradePasswordHash, hH, HashAlg.name]
      rw [if_pos (by decide)]
      rfl
    · rw [unifiedVerify_argon2Hash, beq_self_eq_true]
  · intro hH halg
    subst halg
    refine ⟨?_, ?_, bcryptHash_sw_2b p⟩
    · simp only [upgradePasswordHash, hH, HashAlg.name]
      rw [if_pos (by decide)]
      rfl
    · rw [unifiedVerify_bcryptHash, beq_self_eq_true]
  · intro hH halg
    subst halg
    simp only [upgradePasswordHash, hH, HashAlg.name]
    rw [if_neg (by decide), if_neg (by decide)]
  · intro hH halg
    subst halg
    simp only [upgradePasswordHash, hH, HashAlg.name]
    rw [if_neg (by decide), if_pos (by decide)]
    rfl

/-- Witness for C9, discharging the detected-family hypotheses on concrete
bcrypt and argon2 hashes of a concrete password. -/
theorem claim_c9_upgrade_policy_witness :
    upgradePasswordHash .argon2 (fun _ => false) "pw-one-11"
        (bcryptHash "pw-one-11") = some (argon2Hash "pw-one-11") ∧
    upgradePasswordHash .bcrypt (fun _ => false) "pw-one-11"
        (argon2Hash "pw-one-11") = some (bcryptHash "pw-one-11") ∧
    upgradePasswordHash .bcrypt (fun _ => false) "pw-one-11"
        (bcryptHash "pw-one-11") = none ∧
    upgradePasswordHash .argon2 (fun _ => true) "pw-one-11"
        (argon2Hash "pw-one-11") = some (argon2Hash "pw-one-11") := by
  refine ⟨((claim_c9_upgrade_policy .argon2 _ _ _).1 (by rfl) rfl).1,
    ((claim_c9_upgrade_policy .bcrypt _ _ _).2.1 (by rfl) rfl).1,
    (claim_c9_upgrade_policy .bcrypt _ _ _).2.2.1 (by rfl) rfl, ?_⟩
  have h := (claim_c9_upgrade_policy .argon2 (fun _ => true) "pw-one-11"
    (argon2Hash "pw-one-11")).2.2.2 (by rfl) rfl
  rw [h, if_pos rfl]

/-- C10: `change_password` verifies the current password with the
bcrypt-only verifier, so for a user whose stored hash is Argon2-format it
raises bcrypt's untyped `ValueError("Invalid salt")` whatever the supplied
current password is; and on the success path it stores the bcrypt-only
`get_password_hash` of the new password. -/
theorem claim_c10_change_password_bcrypt_only :
    ∀ (db : DB) (uid : Nat) (u : User) (cur new : String),
      (getUserById db uid = some u →
        pyStartsWith u.hashed_password "$argon2" = true →
        changePassword db uid cur new =
          (.error (.valueError "Invalid salt"), db)) ∧
      (getUserById db uid = some u →
        securityVerifyPassword cur u.hashed_password = .ok true →
        changePassword db uid cur new =
          (.ok true, { db with users := db.users.map (fun w =>
             if w.id == uid then
               { w with hashed_password := securityGetPasswordHash new }
             else w) })) := by
  intro db uid u cur new
  constructor
  · intro hu ha
    obtain ⟨h2b, h2a⟩ := sw_argon_not_bcrypt _ ha
    simp [changePassword, hu, securityVerifyPassword, bcryptCheckpw, h2b, h2a]
  · intro hu hv
    simp [changePassword, hu, hv]

/-- Witness for C10: `carol`'s stored hash is Argon2-format, so her
password change raises the untyped ValueError regardless of the supplied
current password; `alice`'s bcrypt credential goes through the success
path and ends up replaced by the bcrypt hash of the new password. -/
theorem claim_c10_change_password_bcrypt_only_witness :
    changePassword carolDb 3 "any-password-1" "new-pass-123" =
      (.error (.valueError "Invalid salt"), carolDb) ∧
    changePassword refreshDb 1 "correct-pw1" "brand-new-pw9" =
      (.ok true, { refreshDb with users := refreshDb.users.map (fun w =>
         if w.id == 1 then
           { w with hashed_password := securityGetPasswordHash "brand-new-pw9" }
         else w) }) :=
  ⟨(claim_c10_change_password_bcrypt_only carolDb 3 carol "any-password-1"
      "new-pass-123").1 (by rfl) (by rfl),
   (claim_c10_change_password_bcrypt_only refreshDb 1 alice "correct-pw1"
      "brand-new-pw9").2 (by rfl) (by rfl)⟩

end FastapiAuth
